import Mathlib

/-!
Verification of the ring leader-election node in viluon/gprc-le.

The development shallowly embeds src/main.rs (the final, stream-based
variant of the program): the per-node state machine (NodeState and the
four mutating operations), the probe handler (probe_raw), the
notification handler (notify_elected_raw), one iteration of the driver
loop (node_client), the handling of transport-failure results, the lock
discipline of the probe handler as an event trace, and a small
operational semantics of a whole ring that composes the per-node
functions, used to run concrete elections end to end.

Machine integers (u64) are modelled as Nat: the program only increments
phase counters and compares ids, so no operation in the source can
overflow in practice and no wrap-around arithmetic appears in the code.
A Rust panic (assert failure, explicit panic, or .unwrap() on an error)
is modelled as the value none of an Option result.
-/

/-- NodeState from src/main.rs lines 27-32: the three roles of a node.
The candidate variant carries the phase and last_phase_probed counters. -/
inductive NodeState
| candidate (phase last_phase_probed : Nat)
| defeated (leader : Option Nat)
| leader
deriving DecidableEq, Repr

/-- ProbeMessage from the protocol definition (me.viluon.le):
sender_id, headed_left, phase, as used in src/main.rs. -/
structure ProbeMessage where
  sender_id : Nat
  headed_left : Bool
  phase : Nat
deriving DecidableEq, Repr

/-- NotifyMessage from the protocol definition (me.viluon.le):
leader_id and headed_left, as used in src/main.rs. -/
structure NotifyMessage where
  leader_id : Nat
  headed_left : Bool
deriving DecidableEq, Repr

/-- Default for NodeState, src/main.rs lines 34-38: a node starts as
Candidate with phase 1 and last_phase_probed 0. -/
def NodeState.default : NodeState := NodeState.candidate 1 0

/-- next_phase, src/main.rs lines 41-49. On a candidate it asserts
last_phase_probed == phase and then increments phase, keeping
last_phase_probed; on any other role it panics (none). The failed
assertion is likewise none. -/
def next_phase : NodeState → Option NodeState
| NodeState.candidate phase last_phase_probed =>
  if last_phase_probed == phase then
    some (NodeState.candidate (phase + 1) last_phase_probed)
  else none
| _ => none

/-- defeat, src/main.rs lines 51-58: a candidate becomes
Defeated{leader: None}, a defeated node is left unchanged, and on the
leader the call panics (none). -/
def defeat : NodeState → Option NodeState
| NodeState.candidate _ _ => some (NodeState.defeated none)
| NodeState.defeated l => some (NodeState.defeated l)
| NodeState.leader => none

/-- defeat_with_leader, src/main.rs lines 60-68: a candidate or a
defeated node becomes Defeated{leader: Some(l)}; on the leader the call
panics (none). -/
def defeat_with_leader (l : Nat) : NodeState → Option NodeState
| NodeState.candidate _ _ => some (NodeState.defeated (some l))
| NodeState.defeated _ => some (NodeState.defeated (some l))
| NodeState.leader => none

/-- lead, src/main.rs lines 70-76: the leader stays the leader, a
candidate becomes the leader, and on a defeated node the call panics
(none). -/
def lead : NodeState → Option NodeState
| NodeState.leader => some NodeState.leader
| NodeState.candidate _ _ => some NodeState.leader
| NodeState.defeated _ => none

/-- u64::cmp as used by this.id.cmp(&msg.sender_id) in src/main.rs
line 114: the standard three-way comparison on Nat. -/
def cmpNat (a b : Nat) : Ordering :=
  if a < b then Ordering.lt else if a == b then Ordering.eq else Ordering.gt

/-- Outcome of the state-inspection loop of the probe handler for one
received message: the node acted (reaching the given state, possibly
unchanged), or the handler keeps waiting (releasing and reacquiring the
lock), or a called operation panicked. -/
inductive ProbeOutcome
| acted (s : NodeState)
| waits
| panicked
deriving DecidableEq, Repr

/-- The state-inspection loop body of probe_raw, src/main.rs lines
109-124. A candidate whose phase equals last_phase_probed compares its
own id with the sender id: less means next_phase, equal means lead,
greater means defeat. A candidate in any other shape waits. A defeated
node or the leader breaks out with its state unchanged. -/
def probeResolve (selfId senderId : Nat) : NodeState → ProbeOutcome
| NodeState.candidate phase last_phase_probed =>
  if phase == last_phase_probed then
    match cmpNat selfId senderId with
    | Ordering.lt =>
      match next_phase (NodeState.candidate phase last_phase_probed) with
      | some s => ProbeOutcome.acted s
      | none => ProbeOutcome.panicked
    | Ordering.eq =>
      match lead (NodeState.candidate phase last_phase_probed) with
      | some s => ProbeOutcome.acted s
      | none => ProbeOutcome.panicked
    | Ordering.gt =>
      match defeat (NodeState.candidate phase last_phase_probed) with
      | some s => ProbeOutcome.acted s
      | none => ProbeOutcome.panicked
  else ProbeOutcome.waits
| s => ProbeOutcome.acted s

/-- The forwarding prologue of probe_raw, src/main.rs lines 93-105: when
the sender id differs from this node's id, the message is forwarded
verbatim on left_addr when it is headed left, right_addr otherwise;
when the sender is this node nothing is forwarded. -/
def probeForward (selfId : Nat) (leftAddr rightAddr : String) (m : ProbeMessage) :
    Option (String × ProbeMessage) :=
  if m.sender_id != selfId then
    some ((if m.headed_left then leftAddr else rightAddr), m)
  else none

/-- probe_raw, src/main.rs lines 84-133, handling of one received
message: the forwarding decision (address and forwarded message, when
any) paired with the outcome of the state-inspection loop. -/
def probe_raw (selfId : Nat) (leftAddr rightAddr : String) (m : ProbeMessage)
    (s : NodeState) : Option (String × ProbeMessage) × ProbeOutcome :=
  (probeForward selfId leftAddr rightAddr m, probeResolve selfId m.sender_id s)

/-- notify_elected_raw, src/main.rs lines 135-158, handling of one
received message: when the leader id differs from this node's id the
node records the leader via defeat_with_leader and forwards the same
message on the same-direction link; otherwise the message is dropped
and the state is unchanged. The result pairs the new state with the
forward (if any); none is a panic of defeat_with_leader. -/
def notify_elected_raw (selfId : Nat) (leftAddr rightAddr : String)
    (m : NotifyMessage) (s : NodeState) :
    Option (NodeState × Option (String × NotifyMessage)) :=
  if selfId != m.leader_id then
    match defeat_with_leader m.leader_id s with
    | some s' =>
      some (s', some ((if m.headed_left then leftAddr else rightAddr), m))
    | none => none
  else some (s, none)

/-- The visible action of one driver-loop iteration. exitLeader carries
the list of notifications emitted before the loop exits. -/
inductive DriverAct
| sendProbe (addr : String) (m : ProbeMessage)
| idle
| exitDefeated
| exitLeader (sends : List (String × NotifyMessage))
deriving DecidableEq, Repr

/-- One iteration of the driver loop node_client, src/main.rs lines
190-218: a candidate with last_phase_probed different from phase marks
last_phase_probed := phase and sends a probe (headed left exactly when
the phase is even) on the corresponding link; a candidate that already
probed idles; a defeated node exits; the leader sends a single
notification to the left neighbour (the right-hand send at line 214 is
commented out in the source) and exits. -/
def node_client_step (id : Nat) (leftAddr rightAddr : String) :
    NodeState → NodeState × DriverAct
| NodeState.candidate phase last_phase_probed =>
  if last_phase_probed != phase then
    let hl := phase % 2 == 0
    (NodeState.candidate phase phase,
     DriverAct.sendProbe (if hl then leftAddr else rightAddr)
       (ProbeMessage.mk id hl phase))
  else (NodeState.candidate phase last_phase_probed, DriverAct.idle)
| NodeState.defeated l => (NodeState.defeated l, DriverAct.exitDefeated)
| NodeState.leader =>
  (NodeState.leader,
   DriverAct.exitLeader [(leftAddr, NotifyMessage.mk id true)])

/-- The candidate-counter invariant of the spec: last_phase_probed is at
most phase and their difference is 0 or 1; other roles carry no
counters. -/
def stateInv : NodeState → Bool
| NodeState.candidate phase last_phase_probed =>
  decide (last_phase_probed ≤ phase) && decide (phase ≤ last_phase_probed + 1)
| _ => true

/-- Outcome of a task when a transport result comes back: the task runs
to completion (possibly printing a log line), aborts with a panic, or
returns early ending only the surrounding task. -/
inductive TaskOutcome
| completedWith (log : Option String)
| aborted (err : String)
| exited
deriving DecidableEq, Repr

/-- What the probe handler does with the result of connecting to the
forwarding target, src/main.rs line 99: client().await.unwrap() panics
on a connect error (aborted) and otherwise proceeds. -/
def probe_forward_connect (e : Except String Unit) : TaskOutcome :=
  match e with
  | Except.ok _ => TaskOutcome.completedWith none
  | Except.error err => TaskOutcome.aborted err

/-- What the notification handler does with the result of connecting to
the forwarding target, src/main.rs line 150: connect(..).await.unwrap()
panics on a connect error (aborted) and otherwise proceeds. -/
def notify_forward_connect (e : Except String Unit) : TaskOutcome :=
  match e with
  | Except.ok _ => TaskOutcome.completedWith none
  | Except.error err => TaskOutcome.aborted err

/-- What the driver does with the result of its initial neighbour
connections, src/main.rs lines 187-188: .ok()? turns a connect error
into an early return of the driver task (exited), never a panic. -/
def node_client_connect (e : Except String Unit) : TaskOutcome :=
  match e with
  | Except.ok _ => TaskOutcome.completedWith none
  | Except.error _ => TaskOutcome.exited

/-- The body of the tokio::spawn-ed send task shared by the probe and
notify_elected client helpers, src/main.rs lines 162-183: both the Ok
and the Err arm only print a log line; the task always completes. -/
def spawned_send (id : String) (e : Except String Unit) : TaskOutcome :=
  TaskOutcome.completedWith (some (match e with
    | Except.ok _ => id ++ (" tokio::spawned gRPC call completed")
    | Except.error err => id ++ (" tokio::spawned gRPC call failed: ") ++ err))

/-- Atomic events of the probe handler, used to model its lock
discipline: acquiring the state lock, dropping the guard, the bounded
sleep of the wait branch, and a network send. -/
inductive Event
| acquire
| release
| sleep
| send
deriving DecidableEq, Repr

/-- Events of n iterations of the wait branch of the probe handler's
state-inspection loop, src/main.rs lines 109-124: each iteration
acquires the lock (line 110), sleeps the bounded quantum in the match
arm at line 121 with the guard still alive, and releases the guard only
at the end of the loop body. -/
def wait_iters : Nat → List Event
| 0 => []
| n + 1 => Event.acquire :: Event.sleep :: Event.release :: wait_iters n

/-- Events of probe_raw processing one message, src/main.rs lines
91-127: the forwarding send (when the sender differs from this node)
happens before any lock acquisition; then some number of wait
iterations; then the final iteration that acquires, acts or breaks, and
releases. -/
def probe_msg_events (forwards : Bool) (waitRounds : Nat) : List Event :=
  (if forwards then [Event.send] else []) ++ wait_iters waitRounds ++
    [Event.acquire, Event.release]

/-- Annotates each event of a trace with the number of locks held while
it runs, starting from the given depth: an acquire raises the depth for
the events after it, a release is tagged with the depth it is releasing
from and lowers it afterwards. -/
def withDepth : Nat → List Event → List (Event × Nat)
| _, [] => []
| d, Event.acquire :: r => (Event.acquire, d) :: withDepth (d + 1) r
| d, Event.release :: r => (Event.release, d) :: withDepth (d - 1) r
| d, Event.sleep :: r => (Event.sleep, d) :: withDepth d r
| d, Event.send :: r => (Event.send, d) :: withDepth d r

/-- A probe message in flight in the ring model: the payload and the
index of the node it is addressed to. -/
structure PInFlight where
  msg : ProbeMessage
  dest : Nat
deriving DecidableEq, Repr

/-- A notification message in flight in the ring model: the payload and
the index of the node it is addressed to. -/
structure NInFlight where
  msg : NotifyMessage
  dest : Nat
deriving DecidableEq, Repr

/-- A configuration of the whole ring: the node ids in ring order (as
read from standard input by main, src/main.rs lines 229-248), the role
of each node, the messages in flight, and for each node whether its
driver loop is still running. -/
structure Config where
  ids : List Nat
  states : List NodeState
  probes : List PInFlight
  notes : List NInFlight
  active : List Bool
deriving DecidableEq, Repr

/-- Index of node i's left neighbour in a ring of n nodes: main wires
left_addr to the previous id in the input list, src/main.rs line 239. -/
def leftIdx (n i : Nat) : Nat := (i + n - 1) % n

/-- Index of node i's right neighbour in a ring of n nodes: main wires
right_addr to the next id in the input list, src/main.rs line 240. -/
def rightIdx (n i : Nat) : Nat := (i + 1) % n

/-- The neighbour index a message headed in the given direction goes to:
left_addr when headed left, right_addr otherwise, as in src/main.rs
lines 93 and 148. -/
def dirIdx (n i : Nat) (headedLeft : Bool) : Nat :=
  if headedLeft then leftIdx n i else rightIdx n i

/-- One scheduling step of the ring model: a driver marks its phase as
probed and emits the probe, a probe or notification in flight (picked
by its index in the queue) is delivered and handled, a leader's driver
emits its notification and exits, or a defeated node's driver exits. -/
inductive Step
| mark (i : Nat)
| deliverProbe (j : Nat)
| deliverNotify (j : Nat)
| notifyLeader (i : Nat)
| exitDefeated (i : Nat)
deriving DecidableEq, Repr

/-- Applies one step to a configuration. none means the step is not
applicable there: the indices are out of range, the guard of the
corresponding source branch does not hold (for deliverProbe this
includes the handler still waiting for the driver to mark the phase, in
which case the delivery completes only later), or a panic. Each case
composes the per-node functions embedded above exactly as the
corresponding source branch does. -/
def applyStep (c : Config) : Step → Option Config
| Step.mark i => do
  let id ← c.ids[i]?
  let s ← c.states[i]?
  let a ← c.active[i]?
  match a, s with
  | true, NodeState.candidate phase last_phase_probed =>
    if last_phase_probed != phase then
      let hl := phase % 2 == 0
      some { c with
        states := c.states.set i (NodeState.candidate phase phase),
        probes := c.probes ++
          [PInFlight.mk (ProbeMessage.mk id hl phase)
            (dirIdx c.ids.length i hl)] }
    else none
  | _, _ => none
| Step.deliverProbe j => do
  let pm ← c.probes[j]?
  let i := pm.dest
  let id ← c.ids[i]?
  let s ← c.states[i]?
  let fwd := if pm.msg.sender_id != id then
      [PInFlight.mk pm.msg (dirIdx c.ids.length i pm.msg.headed_left)]
    else []
  match probeResolve id pm.msg.sender_id s with
  | ProbeOutcome.acted s' =>
    some { c with
      probes := c.probes.eraseIdx j ++ fwd,
      states := c.states.set i s' }
  | _ => none
| Step.deliverNotify j => do
  let nm ← c.notes[j]?
  let i := nm.dest
  let id ← c.ids[i]?
  let s ← c.states[i]?
  match notify_elected_raw id (toString (leftIdx c.ids.length i))
      (toString (rightIdx c.ids.length i)) nm.msg s with
  | some (s', fwd) =>
    some { c with
      notes := c.notes.eraseIdx j ++
        (match fwd with
         | some (_, m) =>
           [NInFlight.mk m (dirIdx c.ids.length i nm.msg.headed_left)]
         | none => []),
      states := c.states.set i s' }
  | none => none
| Step.notifyLeader i => do
  let id ← c.ids[i]?
  let s ← c.states[i]?
  let a ← c.active[i]?
  match a, s with
  | true, NodeState.leader =>
    some { c with
      active := c.active.set i false,
      notes := c.notes ++
        [NInFlight.mk (NotifyMessage.mk id true) (leftIdx c.ids.length i)] }
  | _, _ => none
| Step.exitDefeated i => do
  let s ← c.states[i]?
  let a ← c.active[i]?
  match a, s with
  | true, NodeState.defeated _ => some { c with active := c.active.set i false }
  | _, _ => none

/-- Runs a schedule of steps from a configuration, failing when any step
is inapplicable. -/
def run : List Step → Config → Option Config
| [], c => some c
| st :: rest, c => (applyStep c st).bind (run rest)

/-- The starting configuration main builds for a list of node ids:
every node in the default state, no messages, every driver active. -/
def initConfig (ids : List Nat) : Config :=
  Config.mk ids (ids.map fun _ => NodeState.default) [] []
    (ids.map fun _ => true)

/-- An election is completed when no message is in flight and every
driver loop has exited. -/
def completed (c : Config) : Bool :=
  c.probes.isEmpty && c.notes.isEmpty && c.active.all (fun a => a == false)

/-- A complete schedule for the two-node ring with ids 1 and 2: both
drivers emit their phase-1 probes, the probes circulate and are
processed, node 1 advances to phase 2, probes for phase 2 circulate,
node 1 sees its own probe return and leads, notifies, and both drivers
exit. -/
def electionSchedule : List Step :=
  [Step.mark 0, Step.mark 1, Step.deliverProbe 0, Step.deliverProbe 0,
   Step.deliverProbe 1, Step.mark 0, Step.deliverProbe 0,
   Step.deliverProbe 0, Step.deliverProbe 0, Step.notifyLeader 0,
   Step.deliverNotify 0, Step.deliverNotify 0, Step.exitDefeated 1]

theorem cmpNat_lt {a b : Nat} (h : a < b) : cmpNat a b = Ordering.lt := by
  simp [cmpNat, h]

theorem cmpNat_self (a : Nat) : cmpNat a a = Ordering.eq := by
  simp [cmpNat]

theorem cmpNat_gt {a b : Nat} (h : b < a) : cmpNat a b = Ordering.gt := by
  have h1 : ¬ a < b := by omega
  have h2 : (a == b) = false := by simp; omega
  simp [cmpNat, h1, h2]

/-- Claim C1 (code_bug evidence): on the two-node ring with ids 1 and 2
the embedded program completes an election (all messages drained, both
drivers exited) in which node 1 — the minimum id, not the maximum 2 —
is the Leader, and the defeated node records leader Some 1 rather than
Some 2. The handler defeats the receiver of a probe whose sender id is
smaller, so the minimum id survives, contradicting the claimed max-id
invariants. -/
theorem leader_election_elects_minimum_run :
  run electionSchedule (initConfig [1, 2])
    = some (Config.mk [1, 2]
        [NodeState.leader, NodeState.defeated (some 1)] [] [] [false, false])
  ∧ completed (Config.mk [1, 2]
        [NodeState.leader, NodeState.defeated (some 1)] [] [] [false, false])
      = true := by
  exact ⟨by decide, by decide⟩

/-- Claim C2: a candidate whose phase equals last_phase_probed reacts to
a received probe by comparing ids: smaller than the sender advances the
phase keeping last_phase_probed, equal becomes the leader, greater
becomes Defeated with no recorded leader. -/
theorem candidate_probe_transitions (selfId senderId p : Nat) :
  (selfId < senderId →
    probeResolve selfId senderId (NodeState.candidate p p)
      = ProbeOutcome.acted (NodeState.candidate (p + 1) p))
  ∧ (selfId = senderId →
    probeResolve selfId senderId (NodeState.candidate p p)
      = ProbeOutcome.acted NodeState.leader)
  ∧ (senderId < selfId →
    probeResolve selfId senderId (NodeState.candidate p p)
      = ProbeOutcome.acted (NodeState.defeated none)) := by
  refine ⟨fun h => ?_, fun h => ?_, fun h => ?_⟩
  · simp [probeResolve, cmpNat_lt h, next_phase]
  · subst h; simp [probeResolve, cmpNat_self, lead]
  · simp [probeResolve, cmpNat_gt h, defeat]

theorem candidate_probe_transitions_witness :
  (1 < 2 ∧ probeResolve 1 2 (NodeState.candidate 3 3)
      = ProbeOutcome.acted (NodeState.candidate 4 3))
  ∧ (probeResolve 2 2 (NodeState.candidate 3 3)
      = ProbeOutcome.acted NodeState.leader)
  ∧ (2 < 3 ∧ probeResolve 3 2 (NodeState.candidate 3 3)
      = ProbeOutcome.acted (NodeState.defeated none)) :=
  ⟨⟨by decide, (candidate_probe_transitions 1 2 3).1 (by decide)⟩,
   (candidate_probe_transitions 2 2 3).2.1 rfl,
   ⟨by decide, (candidate_probe_transitions 3 2 3).2.2 (by decide)⟩⟩

/-- Claim C3 counterexample: the driver observing Leader emits only the
single notification to the left neighbour; the list of sends is not the
two-element list (left with headed_left true, right with headed_left
false) the claim asserts, because the right-hand send is commented out
in the source (src/main.rs line 214). -/
theorem driver_leader_single_notify_ce :
  node_client_step 7 ("L") ("R") NodeState.leader
    = (NodeState.leader,
       DriverAct.exitLeader [(("L"), NotifyMessage.mk 7 true)])
  ∧ DriverAct.exitLeader [(("L"), NotifyMessage.mk 7 true)]
    ≠ DriverAct.exitLeader [(("L"), NotifyMessage.mk 7 true),
        (("R"), NotifyMessage.mk 7 false)] :=
  ⟨rfl, by decide⟩

/-- Claim C3 amended: whenever the driver loop observes role Leader it
emits exactly one notification, NotifyMessage with its own id and
headed_left true, to the left neighbour, and then exits the driver
loop. -/
theorem driver_leader_notifies_left_only (id : Nat) (la ra : String) :
  node_client_step id la ra NodeState.leader
    = (NodeState.leader,
       DriverAct.exitLeader [(la, NotifyMessage.mk id true)]) := rfl

/-- Claim C5: defeat turns a candidate into Defeated with no recorded
leader, leaves a defeated node unchanged, and panics (none) on the
leader. -/
theorem defeat_transitions (p lp : Nat) (lo : Option Nat) :
  defeat (NodeState.candidate p lp) = some (NodeState.defeated none)
  ∧ defeat (NodeState.defeated lo) = some (NodeState.defeated lo)
  ∧ defeat NodeState.leader = none := ⟨rfl, rfl, rfl⟩

/-- Claim C6: a node starts as Candidate with phase 1 and
last_phase_probed 0, the initial state satisfies the counter invariant
(last_phase_probed at most phase, difference 0 or 1), and every
state-mutating operation — next_phase, defeat, defeat_with_leader,
lead, and the driver iteration that marks last_phase_probed — preserves
the invariant. -/
theorem node_default_and_invariant_preservation :
  NodeState.default = NodeState.candidate 1 0
  ∧ stateInv NodeState.default = true
  ∧ (∀ s t, stateInv s = true → next_phase s = some t → stateInv t = true)
  ∧ (∀ s t, stateInv s = true → defeat s = some t → stateInv t = true)
  ∧ (∀ l s t, stateInv s = true → defeat_with_leader l s = some t →
      stateInv t = true)
  ∧ (∀ s t, stateInv s = true → lead s = some t → stateInv t = true)
  ∧ (∀ id la ra s, stateInv s = true →
      stateInv (node_client_step id la ra s).1 = true) := by
  refine ⟨rfl, rfl, ?_, ?_, ?_, ?_, ?_⟩
  · intro s t _ h
    cases s with
    | candidate p lp =>
      by_cases hpl : lp = p
      · subst hpl
        simp [next_phase] at h
        subst h
        simp [stateInv]
      · simp [next_phase, hpl] at h
    | defeated l => simp [next_phase] at h
    | leader => simp [next_phase] at h
  · intro s t _ h
    cases s with
    | candidate p lp => simp [defeat] at h; subst h; rfl
    | defeated l => simp [defeat] at h; subst h; rfl
    | leader => simp [defeat] at h
  · intro l s t _ h
    cases s with
    | candidate p lp => simp [defeat_with_leader] at h; subst h; rfl
    | defeated lo => simp [defeat_with_leader] at h; subst h; rfl
    | leader => simp [defeat_with_leader] at h
  · intro s t _ h
    cases s with
    | candidate p lp => simp [lead] at h; subst h; rfl
    | defeated lo => simp [lead] at h
    | leader => simp [lead] at h; subst h; rfl
  · intro id la ra s hs
    cases s with
    | candidate p lp =>
      by_cases hpl : lp = p
      · subst hpl; simp [node_client_step]; exact hs
      · simp [node_client_step, hpl, stateInv]
    | defeated lo => exact hs
    | leader => exact hs

theorem node_default_and_invariant_preservation_witness :
  stateInv (NodeState.candidate 1 0) = true
  ∧ stateInv (NodeState.candidate 2 1) = true
  ∧ stateInv (NodeState.defeated none) = true
  ∧ stateInv (NodeState.defeated (some 5)) = true
  ∧ stateInv NodeState.leader = true
  ∧ stateInv (node_client_step 3 ("L") ("R") (NodeState.candidate 2 1)).1
      = true :=
  ⟨node_default_and_invariant_preservation.2.1,
   node_default_and_invariant_preservation.2.2.1
     (NodeState.candidate 1 1) (NodeState.candidate 2 1) (by decide) rfl,
   node_default_and_invariant_preservation.2.2.2.1
     (NodeState.candidate 1 1) (NodeState.defeated none) (by decide) rfl,
   node_default_and_invariant_preservation.2.2.2.2.1 5
     (NodeState.candidate 1 1) (NodeState.defeated (some 5)) (by decide) rfl,
   node_default_and_invariant_preservation.2.2.2.2.2.1
     (NodeState.candidate 1 1) NodeState.leader (by decide) rfl,
   node_default_and_invariant_preservation.2.2.2.2.2.2 3 ("L") ("R")
     (NodeState.candidate 2 1) (by decide)⟩

/-- Claim C4 counterexample: a node whose role is Candidate (neither
Defeated nor Leader) still forwards a received probe whose sender
differs from its id — probe_raw forwards before inspecting the state —
contradicting the claim that forwarding happens only in the Defeated or
Leader roles. -/
theorem candidate_forwards_probe_ce :
  (probe_raw 1 ("L") ("R") (ProbeMessage.mk 2 true 5)
      (NodeState.candidate 1 1)).1
    = some (("L"), ProbeMessage.mk 2 true 5) := rfl

/-- Claim C4 amended: a received probe is forwarded, unchanged and on
the link matching its headed_left direction, exactly when the sender id
differs from the receiver's id, whatever the receiver's role (the
forwarding happens before the state is inspected); when the receiver is
Defeated or Leader its state is not mutated. -/
theorem probe_forwarding_characterisation (selfId : Nat) (la ra : String)
    (m : ProbeMessage) (s : NodeState) :
  ((probe_raw selfId la ra m s).1.isSome ↔ m.sender_id ≠ selfId)
  ∧ (∀ a fm, (probe_raw selfId la ra m s).1 = some (a, fm) →
      fm = m ∧ a = (if m.headed_left then la else ra))
  ∧ (∀ lo, s = NodeState.defeated lo →
      (probe_raw selfId la ra m s).2 = ProbeOutcome.acted s)
  ∧ (s = NodeState.leader →
      (probe_raw selfId la ra m s).2 = ProbeOutcome.acted s) := by
  refine ⟨?_, ?_, ?_, ?_⟩
  · by_cases h : m.sender_id = selfId <;> simp [probe_raw, probeForward, h]
  · intro a fm h
    by_cases hs : m.sender_id = selfId
    · simp [probe_raw, probeForward, hs] at h
    · simp [probe_raw, probeForward, hs] at h
      exact ⟨h.2.symm, h.1.symm⟩
  · intro lo hs; subst hs; rfl
  · intro hs; subst hs; rfl

theorem probe_forwarding_characterisation_witness :
  (ProbeMessage.mk 7 true 1 = ProbeMessage.mk 7 true 1 ∧ ("L") = ("L"))
  ∧ (probe_raw 2 ("L") ("R") (ProbeMessage.mk 7 true 1)
        (NodeState.defeated none)).2
      = ProbeOutcome.acted (NodeState.defeated none)
  ∧ (probe_raw 2 ("L") ("R") (ProbeMessage.mk 7 true 1)
        NodeState.leader).2
      = ProbeOutcome.acted NodeState.leader :=
  ⟨(probe_forwarding_characterisation 2 ("L") ("R") (ProbeMessage.mk 7 true 1)
      (NodeState.defeated none)).2.1 ("L") (ProbeMessage.mk 7 true 1) rfl,
   (probe_forwarding_characterisation 2 ("L") ("R") (ProbeMessage.mk 7 true 1)
      (NodeState.defeated none)).2.2.1 none rfl,
   (probe_forwarding_characterisation 2 ("L") ("R") (ProbeMessage.mk 7 true 1)
      NodeState.leader).2.2.2 rfl⟩

/-- Claim C7 counterexample: a notification whose leader id differs from
the receiver's id, arriving at a node whose role is Leader, does not
set the role to Defeated — defeat_with_leader panics on the leader
(none), so the claimed unconditional transition fails there. -/
theorem notify_leader_receiver_panics_ce :
  notify_elected_raw 1 ("L") ("R") (NotifyMessage.mk 2 true)
      NodeState.leader = none := rfl

/-- Claim C7 amended: on receipt of a notification, if the leader id
equals the receiver's id the message is dropped and the state is
unchanged; otherwise, provided the receiver is not the Leader (on the
Leader the handler panics), the role becomes Defeated with Some of the
leader id — overwriting any previous leader record — and the identical
message is forwarded once on the same-direction link. -/
theorem notify_handler_transitions (selfId lid : Nat) (hl : Bool)
    (la ra : String) (s : NodeState) :
  (lid = selfId →
    notify_elected_raw selfId la ra (NotifyMessage.mk lid hl) s
      = some (s, none))
  ∧ (lid ≠ selfId → s ≠ NodeState.leader →
    notify_elected_raw selfId la ra (NotifyMessage.mk lid hl) s
      = some (NodeState.defeated (some lid),
          some ((if hl then la else ra), NotifyMessage.mk lid hl))) := by
  constructor
  · intro h; subst h; simp [notify_elected_raw]
  · intro h hs
    cases s with
    | candidate p lp =>
      simp [notify_elected_raw, defeat_with_leader, Ne.symm h]
    | defeated lo =>
      simp [notify_elected_raw, defeat_with_leader, Ne.symm h]
    | leader => exact absurd rfl hs

theorem notify_handler_transitions_witness :
  notify_elected_raw 3 ("L") ("R") (NotifyMessage.mk 3 false)
      (NodeState.candidate 1 1) = some (NodeState.candidate 1 1, none)
  ∧ notify_elected_raw 3 ("L") ("R") (NotifyMessage.mk 5 false)
      (NodeState.defeated (some 4))
    = some (NodeState.defeated (some 5), some (("R"), NotifyMessage.mk 5 false)) :=
  ⟨(notify_handler_transitions 3 3 false ("L") ("R")
      (NodeState.candidate 1 1)).1 rfl,
   (notify_handler_transitions 3 5 false ("L") ("R")
      (NodeState.defeated (some 4))).2 (by decide) (by decide)⟩

/-- Claim C8 counterexample: a connect failure while the probe handler
forwards a message aborts the task — the source unwraps the connect
result (src/main.rs line 99) — contradicting the claim that transport
failures never abort. -/
theorem probe_forward_connect_abort_ce :
  probe_forward_connect (Except.error ("connection refused"))
    = TaskOutcome.aborted ("connection refused") := rfl

/-- Claim C8 amended: a send failure on an established link is logged
and advisory — the spawned sender task completes with a log line for
both outcomes — and the driver turns its initial connect failure into a
graceful exit; but a connect failure during forwarding inside the probe
or notification handler aborts via the unwrap. -/
theorem transport_failure_outcomes (id err : String) :
  spawned_send id (Except.error err)
    = TaskOutcome.completedWith
        (some (id ++ (" tokio::spawned gRPC call failed: ") ++ err))
  ∧ spawned_send id (Except.ok ())
    = TaskOutcome.completedWith
        (some (id ++ (" tokio::spawned gRPC call completed")))
  ∧ node_client_connect (Except.error err) = TaskOutcome.exited
  ∧ probe_forward_connect (Except.error err) = TaskOutcome.aborted err
  ∧ notify_forward_connect (Except.error err) = TaskOutcome.aborted err :=
  ⟨rfl, rfl, rfl, rfl, rfl⟩

/-- Claim C9 counterexample: in the probe handler's wait branch the
bounded sleep happens at lock depth 1 — the guard acquired at the start
of the loop iteration is still held during the sleep and is dropped
only at the end of the iteration — contradicting the claim that the
handler releases the lock before sleeping. -/
theorem probe_sleep_holds_lock_ce :
  (Event.sleep, 1) ∈ withDepth 0 (probe_msg_events false 1) := by decide

theorem withDepth_wait_mem (w : Nat) (pr : Event × Nat)
    (h : pr ∈ withDepth 0 (wait_iters w ++ [Event.acquire, Event.release])) :
    pr = (Event.acquire, 0) ∨ pr = (Event.sleep, 1)
      ∨ pr = (Event.release, 1) := by
  induction w with
  | zero =>
    simp [wait_iters, withDepth] at h
    rcases h with h | h
    · exact Or.inl h
    · exact Or.inr (Or.inr h)
  | succ n ih =>
    simp only [wait_iters, List.cons_append, withDepth, List.mem_cons] at h
    rcases h with h | h | h | h
    · exact Or.inl h
    · exact Or.inr (Or.inl h)
    · exact Or.inr (Or.inr h)
    · exact ih h

/-- Claim C9 amended: in the probe handler's trace for one message,
every network send happens with no lock held (the forwarding precedes
the first acquisition), while every bounded sleep of the wait branch
happens at lock depth 1: the guard is held across the sleep and is
released only at the end of the loop iteration, before the next
acquisition. -/
theorem probe_handler_lock_trace (forwards : Bool) (w : Nat) :
  (∀ d, (Event.send, d) ∈ withDepth 0 (probe_msg_events forwards w) → d = 0)
  ∧ (∀ d, (Event.sleep, d) ∈ withDepth 0 (probe_msg_events forwards w) →
      d = 1) := by
  constructor
  · intro d hd
    cases forwards with
    | false =>
      simp only [probe_msg_events, if_neg, Bool.false_eq_true,
        not_false_eq_true, List.nil_append] at hd
      rcases withDepth_wait_mem w _ hd with h | h | h <;> simp_all
    | true =>
      simp only [probe_msg_events, if_pos, List.cons_append, List.nil_append,
        withDepth, List.mem_cons] at hd
      rcases hd with h | h
      · simp_all
      · rcases withDepth_wait_mem w _ h with h' | h' | h' <;> simp_all
  · intro d hd
    cases forwards with
    | false =>
      simp only [probe_msg_events, if_neg, Bool.false_eq_true,
        not_false_eq_true, List.nil_append] at hd
      rcases withDepth_wait_mem w _ hd with h | h | h <;> simp_all
    | true =>
      simp only [probe_msg_events, if_pos, List.cons_append, List.nil_append,
        withDepth, List.mem_cons] at hd
      rcases hd with h | h
      · simp_all
      · rcases withDepth_wait_mem w _ h with h' | h' | h' <;> simp_all

theorem probe_handler_lock_trace_witness :
  ((Event.send, (0 : Nat)) ∈ withDepth 0 (probe_msg_events true 1)
    ∧ (0 : Nat) = 0)
  ∧ ((Event.sleep, (1 : Nat)) ∈ withDepth 0 (probe_msg_events true 1)
    ∧ (1 : Nat) = 1) :=
  ⟨⟨by decide, (probe_handler_lock_trace true 1).1 0 (by decide)⟩,
   ⟨by decide, (probe_handler_lock_trace true 1).2 1 (by decide)⟩⟩

/-- Claim C10: the probe handler's behaviour is independent of the
received probe's phase field: two probes agreeing on sender id and
direction but differing in phase produce the same state outcome and the
same forwarding decision and target address, and the forwarded message
is the received one copied verbatim. -/
theorem probe_phase_noninterference (selfId : Nat) (la ra : String)
    (s : NodeState) (sid : Nat) (hl : Bool) (ph ph' : Nat) :
  (probe_raw selfId la ra (ProbeMessage.mk sid hl ph) s).2
    = (probe_raw selfId la ra (ProbeMessage.mk sid hl ph') s).2
  ∧ ((probe_raw selfId la ra (ProbeMessage.mk sid hl ph) s).1).map Prod.fst
    = ((probe_raw selfId la ra (ProbeMessage.mk sid hl ph') s).1).map Prod.fst
  ∧ ((probe_raw selfId la ra (ProbeMessage.mk sid hl ph) s).1).map Prod.snd
    = ((probe_raw selfId la ra (ProbeMessage.mk sid hl ph) s).1).map
        (fun _ => ProbeMessage.mk sid hl ph) := by
  refine ⟨rfl, ?_, ?_⟩
  · by_cases h : sid = selfId <;> simp [probe_raw, probeForward, h]
  · by_cases h : sid = selfId <;> simp [probe_raw, probeForward, h]
